import Mathlib

/-!
Shallow embedding of the per-message pipeline of `src/main.py` (AIHousekeeper).

External services (the generative-language client, the Supabase persistence
client, the weather HTTP endpoint, the Telegram send call) are modelled as
oracles: each call site receives its outcome from an environment record.
A raised Python exception is modelled as `Except.error ()`; a call that
raises performs no modelled side effect.  Side effects (rows inserted,
messages delivered, RPC calls issued) are returned explicitly so that the
theorems can speak about them.
-/

namespace AIHousekeeper

/-- Arguments of the `supabase.rpc("match_memories", ...)` call in
`get_semantic_memories` (src/main.py lines 52-57). -/
structure RpcArgs where
  query_embedding : List Int
  match_threshold : ℚ
  match_count : Nat
  p_user_id : Int
deriving DecidableEq, Repr

/-- Environment of `get_semantic_memories`: the outcome of the embedding
call (as a function of the embedded text) and the outcome of the
`match_memories` RPC (as a function of the arguments it is issued with). -/
structure MemoryEnv where
  embedResult : String → Except Unit (List Int)
  rpcResult : RpcArgs → Except Unit (List String)

/-- Python's `"\n".join(l)`. -/
def joinLines : List String → String
  | [] => ""
  | [s] => s
  | s :: t :: r => s ++ "\n" ++ joinLines (t :: r)

/-- Sentinel returned by `get_semantic_memories` when the RPC result set is
empty (src/main.py line 58). -/
def noMemoriesSentinel : String := "尚無相關回憶。"

/-- `get_semantic_memories(user_id, text)` (src/main.py lines 47-61).
Returns the string handed back to the caller together with the list of
`match_memories` RPC calls issued.  The surrounding `try/except` returns
`""` on any exception. -/
def get_semantic_memories (env : MemoryEnv) (user_id : Int) (text : String) :
    String × List RpcArgs :=
  match env.embedResult text with
  | .error _ => ("", [])
  | .ok vector =>
    let args : RpcArgs :=
      { query_embedding := vector
        match_threshold := (0.4 : ℚ)
        match_count := 3
        p_user_id := user_id }
    match env.rpcResult args with
    | .error _ => ("", [args])
    | .ok data =>
      (if data.isEmpty then noMemoriesSentinel else joinLines data, [args])

/-- A row of the `user_profile` table, restricted to the two fields the
pipeline reads. -/
structure ProfileRow where
  user_id : Int
  personality_summary : String
deriving DecidableEq, Repr

/-- Sentinel used both by the failure-path synthetic profile
(src/main.py line 45) and, per the spec, as the table default. -/
def defaultSummary : String := "觀察中"

/-- Modelled from the spec: the `user_profile` table schema lives in the
managed database, not in the source tree.  The insert in
`get_or_create_user` supplies only `user_id`; per the spec the summary
"defaults to a sentinel still-observing value on first contact", so a
successful insert yields a row whose `personality_summary` is the
sentinel, and that row is what `data.data[0]` returns. -/
def insertedProfileRow (user_id : Int) : ProfileRow :=
  { user_id := user_id, personality_summary := defaultSummary }

/-- Environment of `get_or_create_user`: outcome of the `select` (the list
of rows matching the user id) and outcome of the `insert`. -/
structure ProfileEnv where
  selectResult : Except Unit (List ProfileRow)
  insertResult : Except Unit Unit

/-- Result of `get_or_create_user`: the profile returned to the caller, the
insert calls issued (payload is just the user id, src/main.py line 40), and
the rows actually created in the table. -/
structure ProfileResult where
  profile : ProfileRow
  insertCalls : List Int
  insertedRows : List ProfileRow
deriving DecidableEq, Repr

/-- `get_or_create_user(user_id)` (src/main.py lines 36-45).  The
`try/except` returns the synthetic in-memory default on any exception. -/
def get_or_create_user (env : ProfileEnv) (user_id : Int) : ProfileResult :=
  match env.selectResult with
  | .error _ =>
    { profile := { user_id := user_id, personality_summary := defaultSummary }
      insertCalls := []
      insertedRows := [] }
  | .ok rows =>
    match rows with
    | [] =>
      match env.insertResult with
      | .error _ =>
        { profile := { user_id := user_id, personality_summary := defaultSummary }
          insertCalls := [user_id]
          insertedRows := [] }
      | .ok _ =>
        { profile := insertedProfileRow user_id
          insertCalls := [user_id]
          insertedRows := [insertedProfileRow user_id] }
    | r :: _ =>
      { profile := r, insertCalls := [], insertedRows := [] }

/-- Python's `needle in haystack` on strings, over the character lists. -/
def containsSub (needle : List Char) : List Char → Bool
  | [] => needle.isEmpty
  | c :: t => needle.isPrefixOf (c :: t) || containsSub needle t

/-- `needle in haystack` for `String`s. -/
def strContains (needle haystack : String) : Bool :=
  containsSub needle.data haystack.data

/-- Python's `str.lower()` (exact on the ASCII letters the code lowers). -/
def lowerStr (s : String) : String :=
  ⟨s.data.map Char.toLower⟩

/-- The `city_map` dict of `get_weather_context` (src/main.py lines 71-76),
in Python dict insertion order. -/
def city_map : List (String × String) :=
  [("台北", "Taipei"), ("臺北", "Taipei"),
   ("台中", "Taichung"), ("臺中", "Taichung"),
   ("高雄", "Kaohsiung"), ("台南", "Tainan"), ("新竹", "Hsinchu"),
   ("桃園", "Taoyuan")]

/-- The city-extraction loop of `get_weather_context` (src/main.py
lines 69-80): the first map key occurring in the text wins; default
Taipei. -/
def extractCity (text : String) : String :=
  match city_map.find? (fun p => strContains p.1 text) with
  | some p => p.2
  | none => "Taipei"

/-- The fields of `data['current_condition'][0]` that the code reads:
`lang_zh-TV` (already projected to `[0]['value']`, absent when the key is
missing), `weatherDesc[0]['value']`, `temp_C`, `FeelsLikeC`. -/
structure CurrCond where
  langZhTV : Option String
  weatherDesc : String
  temp_C : String
  feelsLikeC : String
deriving DecidableEq, Repr

/-- Outcome of the `httpx.get` weather call: a raised exception (timeout,
connection error), or an HTTP response with a status code and a payload
(`none` models a malformed payload, i.e. `res.json()` or the subsequent
key accesses raising). -/
inductive HttpResult
  | exn
  | resp (status : Nat) (body : Option CurrCond)
deriving DecidableEq, Repr

/-- Whether the weather lookup succeeded: HTTP 200 with a well-formed
payload. -/
def HttpResult.isSuccess : HttpResult → Bool
  | .resp 200 (some _) => true
  | _ => false

/-- Whether the message text triggers the weather enrichment
(src/main.py line 65): it contains `"天氣"`, or its lowercasing contains
`"weather"`. -/
def weatherKeyword (text : String) : Bool :=
  strContains "天氣" text || strContains "weather" (lowerStr text)

/-- The enrichment string built on a successful lookup
(src/main.py line 92). -/
def weatherString (city desc temp feels : String) : String :=
  "\n[即時天氣數據 - " ++ city ++ "] 狀態：" ++ desc ++ "，氣溫：" ++ temp ++
    "°C (體感 " ++ feels ++ "°C)。(請依據此數據回答，不可瞎掰)"

/-- Result of `get_weather_context`: the returned string and the list of
cities an HTTP lookup was issued for. -/
structure WeatherResult where
  output : String
  lookups : List String
deriving DecidableEq, Repr

/-- `get_weather_context(text)` (src/main.py lines 63-96).  Without a
keyword it returns `""` before any lookup; with one it performs the HTTP
call and returns `""` on exception, non-200 status, or malformed payload,
and the formatted summary on success. -/
def get_weather_context (http : String → HttpResult) (text : String) :
    WeatherResult :=
  if weatherKeyword text then
    let city := extractCity text
    match http city with
    | .exn => { output := "", lookups := [city] }
    | .resp status body =>
      if status = 200 then
        match body with
        | none => { output := "", lookups := [city] }
        | some curr =>
          { output :=
              weatherString city (curr.langZhTV.getD curr.weatherDesc)
                curr.temp_C curr.feelsLikeC
            lookups := [city] }
      else { output := "", lookups := [city] }
  else { output := "", lookups := [] }

/-- A side effect performed on the persistence service by the background
evolution task. -/
inductive Effect
  | chatLogInsert (user_id : Int) (user_text bot_text : String)
  | memoryInsert (user_id : Int) (content : String) (embedding : List Int)
  | profileUpdate (user_id : Int) (summary : String)
deriving DecidableEq, Repr

/-- Environment of `background_evolution`: outcomes of the chat-log
insert, the re-embedding (as a function of the embedded text), the
long-term-memory insert, the reflection generation call and the profile
update. -/
structure EvoEnv where
  chatInsert : Except Unit Unit
  embedResult : String → Except Unit (List Int)
  memInsert : Except Unit Unit
  reflectGen : String → Except Unit String
  updateResult : Except Unit Unit

/-- The reflection prompt of step C (src/main.py line 159). -/
def reflectPrompt (text old_summary : String) : String :=
  "分析此對話並更新描述：" ++ text ++ "。目前認知：" ++ old_summary

/-- Step C of `background_evolution` (src/main.py lines 158-167) without
its local `try/except`: the reflection generation and the profile update,
either of which may raise. -/
def evolution_stepC_raw (env : EvoEnv) (user_id : Int)
    (text old_summary : String) : List Effect × Except Unit Unit :=
  match env.reflectGen (reflectPrompt text old_summary) with
  | .error _ => ([], .error ())
  | .ok newSummary =>
    match env.updateResult with
    | .error _ => ([], .error ())
    | .ok _ => ([Effect.profileUpdate user_id newSummary], .ok ())

/-- Step C with its local `except Exception as api_err` (src/main.py
lines 160-169): any exception inside is caught and logged; the effects
performed before the exception stand. -/
def evolution_stepC (env : EvoEnv) (user_id : Int)
    (text old_summary : String) : List Effect × Except Unit Unit :=
  ((evolution_stepC_raw env user_id text old_summary).1, .ok ())

/-- The body of `background_evolution`'s top-level `try` (src/main.py
lines 142-169): steps A (chat-log insert), B (re-embed and memory
insert), C (reflection).  Returns the effects performed, and `.error ()`
when an uncaught exception escapes the body. -/
def evolution_body (env : EvoEnv) (user_id : Int)
    (text old_summary bot_reply : String) : List Effect × Except Unit Unit :=
  match env.chatInsert with
  | .error _ => ([], .error ())
  | .ok _ =>
    let effA := [Effect.chatLogInsert user_id text bot_reply]
    match env.embedResult text with
    | .error _ => (effA, .error ())
    | .ok vec =>
      match env.memInsert with
      | .error _ => (effA, .error ())
      | .ok _ =>
        let effB := effA ++ [Effect.memoryInsert user_id text vec]
        let c := evolution_stepC env user_id text old_summary
        (effB ++ c.1, c.2)

/-- `background_evolution(user_id, text, old_summary, bot_reply)`
(src/main.py lines 140-172).  The top-level `try/except` catches every
exception escaping the body, so the task always terminates normally: the
result is `.ok` with the effects performed.  Formulated as an
`Except`-valued function so that non-propagation is a statement, not a
typing accident. -/
def background_evolution (env : EvoEnv) (user_id : Int)
    (text old_summary bot_reply : String) : Except Unit (List Effect) :=
  .ok (evolution_body env user_id text old_summary bot_reply).1

/-- The effects actually performed by one run of the evolution task. -/
def evoEffects (env : EvoEnv) (user_id : Int)
    (text old_summary bot_reply : String) : List Effect :=
  (evolution_body env user_id text old_summary bot_reply).1

/-- The fixed apology sent on a top-level pipeline failure
(src/main.py line 138). -/
def apology : String := "抱歉，閣下。我的思緒稍微紊亂了，請容我重新整理。"

/-- Arguments `handle_message` passes to the spawned
`background_evolution` task (src/main.py line 134). -/
structure EvoArgs where
  user_id : Int
  text : String
  old_summary : String
  bot_reply : String
deriving DecidableEq, Repr

/-- Environment of one `handle_message` run: the sub-environments of the
helpers, the outcome of the `generate_content` reply call, the outcome of
each `reply_text` delivery (as a function of the message sent), and the
environment the spawned evolution task will run against. -/
structure HandleEnv where
  profile : ProfileEnv
  memory : MemoryEnv
  http : String → HttpResult
  genResult : Except Unit String
  sendResult : String → Except Unit Unit
  evo : EvoEnv

/-- Result of one `handle_message` run: the messages actually delivered
to the user (a `reply_text` call whose send raises delivers nothing), and
the background tasks spawned. -/
structure HandleResult where
  delivered : List String
  tasks : List EvoArgs
deriving DecidableEq, Repr

/-- `await update.message.reply_text(m)`: delivered iff the send does not
raise. -/
def deliver (env : HandleEnv) (m : String) : List String :=
  match env.sendResult m with
  | .ok _ => [m]
  | .error _ => []

/-- `handle_message` for a text message (src/main.py lines 100-138), after
the non-text guard.  The three helpers catch their own exceptions and so
always return; the steps that can raise into the top-level `try` are the
generation call and the `reply_text` of the reply.  On either, the
`except` branch sends the fixed apology and spawns nothing. -/
def handle_message (env : HandleEnv) (user_id : Int) (text : String) :
    HandleResult :=
  let prof := get_or_create_user env.profile user_id
  let _past := get_semantic_memories env.memory user_id text
  let _weather := get_weather_context env.http text
  match env.genResult with
  | .error _ => { delivered := deliver env apology, tasks := [] }
  | .ok bot_reply =>
    match env.sendResult bot_reply with
    | .error _ => { delivered := deliver env apology, tasks := [] }
    | .ok _ =>
      { delivered := [bot_reply]
        tasks := [{ user_id := user_id, text := text
                    old_summary := prof.profile.personality_summary
                    bot_reply := bot_reply }] }

/-- All persistence effects of the message: those of the background tasks
`handle_message` spawned, each run against the evolution environment. -/
def messageEffects (env : HandleEnv) (user_id : Int) (text : String) :
    List Effect :=
  (handle_message env user_id text).tasks.flatMap fun a =>
    evoEffects env.evo a.user_id a.text a.old_summary a.bot_reply

/-! ### Concrete environments used by witnesses and counterexamples -/

/-- A memory environment whose embedding call returns `[1, 2]` and whose
RPC succeeds with the given result set. -/
def memEnvOK (data : List String) : MemoryEnv :=
  { embedResult := fun _ => .ok [1, 2], rpcResult := fun _ => .ok data }

/-- A memory environment whose embedding call raises. -/
def memEnvEmbedErr : MemoryEnv :=
  { embedResult := fun _ => .error (), rpcResult := fun _ => .ok [] }

/-! ### Helper lemmas -/

theorem append_newline_ne_empty (a b : String) : a ++ "\n" ++ b ≠ "" := by
  intro h
  have hl := congrArg String.length h
  simp [String.length_append] at hl
  exact absurd hl.1.2 (by decide)

theorem joinLines_ne_empty :
    ∀ l : List String, l ≠ [] → (∀ s ∈ l, s ≠ "") → joinLines l ≠ ""
  | [], h, _ => absurd rfl h
  | [s], _, hs => by simpa [joinLines] using hs s (by simp)
  | s :: t :: r, _, _ => by
    simpa [joinLines] using append_newline_ne_empty s (joinLines (t :: r))

theorem noMemoriesSentinel_ne_empty : noMemoriesSentinel ≠ "" := by decide

/-! ### Claims -/

/-- C1: whenever the embedding call succeeds and the Memory Retriever thus
performs its similarity search, the single `match_memories` RPC it issues
carries the embedding vector of the message, threshold exactly 0.4, result
cap exactly 3, and the user identifier as the filter parameter. -/
theorem rpc_called_with_fixed_args (env : MemoryEnv) (user_id : Int)
    (text : String) (v : List Int) (h : env.embedResult text = .ok v) :
    (get_semantic_memories env user_id text).2 =
      [{ query_embedding := v, match_threshold := (0.4 : ℚ)
         match_count := 3, p_user_id := user_id }] := by
  simp only [get_semantic_memories, h]
  split <;> rfl

/-- Witness for C1 at a concrete environment, user 7, message "hi". -/
theorem rpc_called_with_fixed_args_witness :
    (get_semantic_memories (memEnvOK []) 7 "hi").2 =
      [{ query_embedding := [1, 2], match_threshold := (0.4 : ℚ)
         match_count := 3, p_user_id := 7 }] :=
  rpc_called_with_fixed_args (memEnvOK []) 7 "hi" [1, 2] rfl

/-- C2: if the embedding call raises, or it succeeds and the RPC call
raises, `get_semantic_memories` returns `""`; being a total function of the
environment, it propagates no exception. -/
theorem memories_failure_empty (env : MemoryEnv) (user_id : Int)
    (text : String)
    (h : env.embedResult text = .error () ∨
      ∃ v, env.embedResult text = .ok v ∧
        env.rpcResult { query_embedding := v, match_threshold := (0.4 : ℚ)
                        match_count := 3, p_user_id := user_id } = .error ()) :
    (get_semantic_memories env user_id text).1 = "" := by
  rcases h with h | ⟨v, hv, hr⟩
  · simp only [get_semantic_memories, h]
  · simp only [get_semantic_memories, hv, hr]

/-- Witness for C2: the embedding call raises and the result is `""`. -/
theorem memories_failure_empty_witness :
    (get_semantic_memories memEnvEmbedErr 0 "x").1 = "" :=
  memories_failure_empty memEnvEmbedErr 0 "x" (Or.inl rfl)

/-- C3 counterexample: with both calls succeeding and an empty result set,
`get_semantic_memories` returns the sentinel `尚無相關回憶。`, not the empty
concatenation claimed. -/
theorem memories_empty_result_cex :
    (memEnvOK []).embedResult "hi" = .ok [1, 2] ∧
    (memEnvOK []).rpcResult { query_embedding := [1, 2]
                              match_threshold := (0.4 : ℚ)
                              match_count := 3, p_user_id := 0 } = .ok [] ∧
    (get_semantic_memories (memEnvOK []) 0 "hi").1 = noMemoriesSentinel ∧
    noMemoriesSentinel ≠ "" :=
  ⟨rfl, rfl, rfl, by decide⟩

/-- C3 (amended): on a successful embedding and search, the returned
string is the result contents joined one per line in returned order when
the result set is non-empty; an empty result set instead yields the
sentinel `尚無相關回憶。`. -/
theorem memories_success_joins_lines (env : MemoryEnv) (user_id : Int)
    (text : String) (v : List Int) (data : List String)
    (hv : env.embedResult text = .ok v)
    (hr : env.rpcResult { query_embedding := v, match_threshold := (0.4 : ℚ)
                          match_count := 3, p_user_id := user_id } = .ok data) :
    (get_semantic_memories env user_id text).1 =
      if data.isEmpty then noMemoriesSentinel else joinLines data := by
  simp only [get_semantic_memories, hv, hr]

/-- Witness for C3 (amended): a two-element result set yields the two
contents joined by a newline. -/
theorem memories_success_joins_lines_witness :
    (get_semantic_memories (memEnvOK ["a", "b"]) 7 "x").1 = "a\nb" := by
  have h := memories_success_joins_lines (memEnvOK ["a", "b"]) 7 "x"
    [1, 2] ["a", "b"] rfl rfl
  simpa [joinLines] using h

/-- C10 counterexample: a successful search whose single returned content
is the empty string makes `get_semantic_memories` return `""` on the
success path, so an empty return value does not occur only on the failure
path. -/
theorem memories_empty_on_success_cex :
    (memEnvOK [""]).embedResult "hi" = .ok [1, 2] ∧
    (memEnvOK [""]).rpcResult { query_embedding := [1, 2]
                                match_threshold := (0.4 : ℚ)
                                match_count := 3, p_user_id := 0 } = .ok [""] ∧
    (get_semantic_memories (memEnvOK [""]) 0 "hi").1 = "" :=
  ⟨rfl, rfl, rfl⟩

/-- C10 (amended): on a successful embedding and search, an empty result
set yields the fixed non-empty sentinel `尚無相關回憶。` rather than the
empty string; and provided every returned content is non-empty, the
returned string is non-empty, so an empty return then occurs only on the
failure path. -/
theorem memories_sentinel_on_empty_result (env : MemoryEnv) (user_id : Int)
    (text : String) (v : List Int) (data : List String)
    (hv : env.embedResult text = .ok v)
    (hr : env.rpcResult { query_embedding := v, match_threshold := (0.4 : ℚ)
                          match_count := 3, p_user_id := user_id } = .ok data)
    (hne : ∀ s ∈ data, s ≠ "") :
    (data = [] → (get_semantic_memories env user_id text).1 =
      noMemoriesSentinel) ∧
    (get_semantic_memories env user_id text).1 ≠ "" := by
  simp only [get_semantic_memories, hv, hr]
  constructor
  · intro hd
    simp [hd]
  · rcases heq : data with _ | ⟨s, rest⟩
    · simpa using noMemoriesSentinel_ne_empty
    · have hjoin : joinLines (s :: rest) ≠ "" :=
        joinLines_ne_empty (s :: rest) (by simp) (heq ▸ hne)

      simpa using hjoin

/-- Witness for C10 (amended), at an environment whose search returns an
empty result set. -/
theorem memories_sentinel_on_empty_result_witness :
    (get_semantic_memories (memEnvOK []) 0 "hi").1 = noMemoriesSentinel :=
  (memories_sentinel_on_empty_result (memEnvOK []) 0 "hi"
    [1, 2] [] rfl rfl (by simp)).1 rfl

/-- C4: if the profile lookup raises, or the lookup finds no row and the
creation raises, `get_or_create_user` returns the synthetic in-memory
profile carrying the sentinel summary, creates no row, and — when the
lookup itself raised — issues no insert call at all; being total, it
propagates no exception. -/
theorem profile_failure_synthetic_default (env : ProfileEnv) (user_id : Int)
    (h : env.selectResult = .error () ∨
      (env.selectResult = .ok [] ∧ env.insertResult = .error ())) :
    (get_or_create_user env user_id).profile =
      { user_id := user_id, personality_summary := defaultSummary } ∧
    (get_or_create_user env user_id).insertedRows = [] ∧
    (env.selectResult = .error () →
      (get_or_create_user env user_id).insertCalls = []) := by
  rcases h with h | ⟨hs, hi⟩
  · simp [get_or_create_user, h]
  · simp [get_or_create_user, hs, hi]

/-- Witness for C4: a raising lookup yields the sentinel profile and no
side effect. -/
theorem profile_failure_synthetic_default_witness :
    (get_or_create_user { selectResult := .error (), insertResult := .ok () }
        9).profile =
      { user_id := 9, personality_summary := defaultSummary } ∧
    (get_or_create_user { selectResult := .error (), insertResult := .ok () }
        9).insertedRows = [] ∧
    (get_or_create_user { selectResult := .error (), insertResult := .ok () }
        9).insertCalls = [] :=
  have h := profile_failure_synthetic_default
    { selectResult := .error (), insertResult := .ok () } 9 (Or.inl rfl)
  ⟨h.1, h.2.1, h.2.2 rfl⟩

/-- C5: for a user the lookup finds no row for, `get_or_create_user`
issues exactly one insert call, and — when that insert succeeds — exactly
one row is created, carrying the default personality-summary sentinel
`觀察中`, and it is the profile returned. -/
theorem profile_first_contact_inserts_one (env : ProfileEnv) (user_id : Int)
    (hs : env.selectResult = .ok []) :
    (get_or_create_user env user_id).insertCalls = [user_id] ∧
    (env.insertResult = .ok () →
      (get_or_create_user env user_id).insertedRows =
        [{ user_id := user_id, personality_summary := defaultSummary }] ∧
      (get_or_create_user env user_id).profile =
        { user_id := user_id, personality_summary := defaultSummary }) := by
  cases hi : env.insertResult <;>
    simp [get_or_create_user, hs, hi, insertedProfileRow]

/-- Witness for C5 at user 42 with an available persistence service. -/
theorem profile_first_contact_inserts_one_witness :
    (get_or_create_user { selectResult := .ok [], insertResult := .ok () }
        42).insertCalls = [42] ∧
    (get_or_create_user { selectResult := .ok [], insertResult := .ok () }
        42).insertedRows =
      [{ user_id := 42, personality_summary := defaultSummary }] ∧
    (get_or_create_user { selectResult := .ok [], insertResult := .ok () }
        42).profile =
      { user_id := 42, personality_summary := defaultSummary } :=
  have h := profile_first_contact_inserts_one
    { selectResult := .ok [], insertResult := .ok () } 42 rfl
  ⟨h.1, (h.2 rfl).1, (h.2 rfl).2⟩

/-- An HTTP environment where every lookup raises (e.g. times out). -/
def httpFail : String → HttpResult := fun _ => .exn

/-- C6: a message containing neither `天氣` nor (case-insensitively)
`weather` yields the empty enrichment string with no lookup issued; a
message containing a recognized keyword yields a non-empty enrichment
string only if the lookup returns HTTP 200 with a well-formed payload. -/
theorem weather_keyword_gate (http : String → HttpResult) (text : String) :
    (weatherKeyword text = false →
      get_weather_context http text = { output := "", lookups := [] }) ∧
    (weatherKeyword text = true →
      (get_weather_context http text).output ≠ "" →
      (http (extractCity text)).isSuccess = true) := by
  constructor
  · intro hk
    simp [get_weather_context, hk]
  · intro hk
    simp only [get_weather_context, hk, if_true]
    cases hres : http (extractCity text) with
    | exn => simp
    | resp status body =>
      by_cases h200 : status = 200
      · subst h200
        cases body with
        | none => simp
        | some curr => simp [HttpResult.isSuccess]
      · simp [h200]

/-- Witness for C6: a keyword-free message yields the empty enrichment and
no lookup, even with a failing HTTP environment. -/
theorem weather_keyword_gate_witness :
    get_weather_context httpFail "hello" = { output := "", lookups := [] } :=
  (weather_keyword_gate httpFail "hello").1 (by decide)

/-- C7: on a triggering message, if the lookup does not succeed (raised
exception, non-200 status, or malformed payload), `get_weather_context`
returns `""`; being total, it propagates no exception. -/
theorem weather_failure_empty (http : String → HttpResult) (text : String)
    (hk : weatherKeyword text = true)
    (hf : (http (extractCity text)).isSuccess = false) :
    (get_weather_context http text).output = "" := by
  simp only [get_weather_context, hk, if_true]
  cases hres : http (extractCity text) with
  | exn => rfl
  | resp status body =>
    rw [hres] at hf
    by_cases h200 : status = 200
    · subst h200
      cases body with
      | none => simp
      | some curr => simp [HttpResult.isSuccess] at hf
    · simp [h200]

/-- Witness for C7: the message `天氣` triggers the enrichment and a
raising lookup yields the empty string. -/
theorem weather_failure_empty_witness :
    (get_weather_context httpFail "天氣").output = "" :=
  weather_failure_empty httpFail "天氣" (by decide) rfl

/-- An evolution environment where steps A and B succeed and the
reflection generation call raises. -/
def evoEnvReflErr : EvoEnv :=
  { chatInsert := .ok (), embedResult := fun _ => .ok [3]
    memInsert := .ok (), reflectGen := fun _ => .error ()
    updateResult := .ok () }

/-- A handle environment whose generation call raises on every call and
whose Telegram sends succeed. -/
def handleEnvGenErr : HandleEnv :=
  { profile := { selectResult := .ok [], insertResult := .ok () }
    memory := memEnvOK []
    http := httpFail
    genResult := .error ()
    sendResult := fun _ => .ok ()
    evo := evoEnvReflErr }

/-- C8: if the generation call raises, or the reply send raises, then
(provided the apology send itself goes through) the user receives exactly
the fixed apology string, no background evolution task is spawned, and no
chat-log or memory row is written for the message. -/
theorem handle_failure_apology (env : HandleEnv) (user_id : Int)
    (text : String)
    (hfail : env.genResult = .error () ∨
      ∃ r, env.genResult = .ok r ∧ env.sendResult r = .error ())
    (hap : env.sendResult apology = .ok ()) :
    handle_message env user_id text =
      { delivered := [apology], tasks := [] } ∧
    messageEffects env user_id text = [] := by
  have hh : handle_message env user_id text =
      { delivered := [apology], tasks := [] } := by
    rcases hfail with h | ⟨r, hg, hs⟩
    · simp [handle_message, h, deliver, hap]
    · simp [handle_message, hg, hs, deliver, hap]
  exact ⟨hh, by simp [messageEffects, hh]⟩

/-- Witness for C8: generation raises on every call in a concrete
environment. -/
theorem handle_failure_apology_witness :
    handle_message handleEnvGenErr 7 "hi" =
      { delivered := [apology], tasks := [] } ∧
    messageEffects handleEnvGenErr 7 "hi" = [] :=
  handle_failure_apology handleEnvGenErr 7 "hi" (Or.inl rfl) rfl

/-- C9: if steps A and B succeeded and the reflection generation call
raises, the exception is caught by step C's local handler, so the task
completes normally with exactly the chat-log row and the memory row in
effect; moreover for every environment whatsoever the worker returns
normally (`.ok`), i.e. no exception ever propagates to the caller. -/
theorem evolution_inner_catch (env : EvoEnv) (user_id : Int)
    (text old_summary bot_reply : String) (v : List Int)
    (hA : env.chatInsert = .ok ())
    (hv : env.embedResult text = .ok v)
    (hB : env.memInsert = .ok ())
    (hC : env.reflectGen (reflectPrompt text old_summary) = .error ()) :
    background_evolution env user_id text old_summary bot_reply =
      .ok [Effect.chatLogInsert user_id text bot_reply,
           Effect.memoryInsert user_id text v] ∧
    ∀ (env2 : EvoEnv) (uid2 : Int) (t2 o2 b2 : String),
      ∃ effs, background_evolution env2 uid2 t2 o2 b2 = .ok effs := by
  refine ⟨?_, fun env2 uid2 t2 o2 b2 => ⟨_, rfl⟩⟩
  simp [background_evolution, evolution_body, evolution_stepC,
    evolution_stepC_raw, hA, hv, hB, hC]

/-- Witness for C9 in a concrete environment where the reflection call
raises after steps A and B succeeded. -/
theorem evolution_inner_catch_witness :
    background_evolution evoEnvReflErr 7 "hi" "old" "rep" =
      .ok [Effect.chatLogInsert 7 "hi" "rep",
           Effect.memoryInsert 7 "hi" [3]] :=
  (evolution_inner_catch evoEnvReflErr 7 "hi" "old" "rep" [3]
    rfl rfl rfl rfl).1

end AIHousekeeper
